/-
Verification of the text-trainer run orchestrator (`scripts/text_trainer.py`):
a shallow embedding of its data model, the deadline-aware eval/save supervisor,
the config builder, and the main control flow, together with theorems about
the behaviours the specification ascribes to them.

Times are modelled as rationals (seconds). The timestamp a process prints and
hands to the callback handler has second resolution (`strftime` with a
seconds-precision format), so distinctions of at least one second between
process clocks are preserved by the model.
-/
import Mathlib

namespace TextTrainer

/-! ## Task-type and file-format vocabulary (from the argparse declarations and
    the `TaskType` comparisons in `main`, `scripts/text_trainer.py` lines 199-228). -/

/-- The three task-type tags accepted by the command line (`--task-type` choices). -/
def TASK_TYPE_CHOICES : List String := ["InstructTextTask", "DpoTask", "GrpoTask"]

/-- The four file-format tags accepted by the command line (`--file-format` choices). -/
def FILE_FORMAT_CHOICES : List String := ["csv", "json", "hf", "s3"]

/-- `TaskType.INSTRUCTTEXTTASK.value`. -/
def INSTRUCTTEXTTASK_VALUE : String := "InstructTextTask"

/-- `TaskType.DPOTASK.value`. -/
def DPOTASK_VALUE : String := "DpoTask"

/-- `TaskType.GRPOTASK.value`. -/
def GRPOTASK_VALUE : String := "GrpoTask"

/-- `FileFormat.HF.value`, the registry-hosted dataset format tag. -/
def HF_VALUE : String := "hf"

/-! ## Dataset-type records -/

/-- One (source, weight) reward-function pair of the reward-optimization variant. -/
structure RewardFunction where
  reward_func : String
  reward_weight : ℚ
deriving DecidableEq

/-- Modelled from the spec: `InstructTextDatasetType` (core.models.utility_models,
not under `src/`) — the instruction-tuning record of dataset column roles. -/
structure InstructTextDatasetType where
  columns : List (String × String)
deriving DecidableEq

/-- Modelled from the spec: `DpoDatasetType` (core.models.utility_models, not under
`src/`) — the preference-pair record of dataset column roles. -/
structure DpoDatasetType where
  columns : List (String × String)
deriving DecidableEq

/-- Modelled from the spec: `GrpoDatasetType` (core.models.utility_models, not under
`src/`) — carries the ordered sequence of (source, weight) reward-function pairs. -/
structure GrpoDatasetType where
  reward_functions : List RewardFunction
deriving DecidableEq

/-- The tagged union of the three dataset-type variant shapes. -/
inductive DatasetType
  | instructT (t : InstructTextDatasetType)
  | dpoT (t : DpoDatasetType)
  | grpoT (t : GrpoDatasetType)
deriving DecidableEq

/-! ## The deadline-aware eval/save supervisor.

Modelled from the spec: `WhenToEvalHandler` and the eval/save callbacks live in
`customized_trainer`, which is not under `src/`; the state machine below follows
the spec's EvalSaveSupervisor/DeadlineTracker contract (trigger threshold =
deadline minus safety margin, boundary inclusive; states pending/finalized). -/

/-- Outcome of a step-boundary check. -/
inductive SaveDecision
  | continueNormally
  | forceEvalAndSave
  | forceFinalEvalAndSave
deriving DecidableEq

/-- Modelled from the spec: the fixed data the supervisor is constructed with —
the end-of-budget deadline and the safety margin (`save_before_remaining_time`). -/
structure SupervisorCtx where
  end_time : ℚ
  save_before_remaining_time : ℚ
deriving DecidableEq

/-- The trigger threshold: deadline minus safety margin. -/
def trigger_threshold (ctx : SupervisorCtx) : ℚ :=
  ctx.end_time - ctx.save_before_remaining_time

/-- Modelled from the spec: DeadlineTracker's `isPastTrigger`, boundary inclusive. -/
def is_past_trigger (ctx : SupervisorCtx) (now : ℚ) : Bool :=
  trigger_threshold ctx ≤ now

/-- Modelled from the spec: one step-boundary check. The mutable supervisor state
is the `finalized` flag; `external_eval_due` is the external loop's own periodic
evaluation cadence, passed in. Returns the new state and the decision. -/
def on_step_boundary (ctx : SupervisorCtx) (finalized : Bool) (now : ℚ)
    (external_eval_due : Bool) : Bool × SaveDecision :=
  if finalized then (finalized, .continueNormally)
  else if is_past_trigger ctx now then (true, .forceFinalEvalAndSave)
  else if external_eval_due then (finalized, .forceEvalAndSave)
  else (finalized, .continueNormally)

/-- Fold of `on_step_boundary` over a whole run: a list of
(`now`, `external_eval_due`) calls. Returns the final state and the decisions. -/
def run_boundaries (ctx : SupervisorCtx) (finalized : Bool) :
    List (ℚ × Bool) → Bool × List SaveDecision
  | [] => (finalized, [])
  | c :: rest =>
      let r := on_step_boundary ctx finalized c.1 c.2
      let rr := run_boundaries ctx r.1 rest
      (rr.1, r.2 :: rr.2)

/-- The decisions a freshly constructed (pending) supervisor emits on a call list. -/
def decisions (ctx : SupervisorCtx) (calls : List (ℚ × Bool)) : List SaveDecision :=
  (run_boundaries ctx false calls).2

/-- Boolean recogniser for the final forced save decision. -/
def is_force_final : SaveDecision → Bool
  | .forceFinalEvalAndSave => true
  | _ => false

/-! ## The configuration document (`create_config`, lines 134-189).

The document is modelled as a record of the fields `create_config` touches.
The collaborators it calls that are not under `src/` (`create_dataset_entry`,
`update_flash_attention`, `customize_config`, `create_reward_funcs_file`,
path resolution, and the tokenizer loader) are taken as explicit function
parameters, so every theorem below quantifies over their behaviour; the frame
conditions the spec gives for them appear as hypotheses where needed. -/

/-- One entry of the config's `datasets` list, with the fields the rewrite loop
in `create_config` (lines 171-178) touches. `none` models an absent key. -/
structure DatasetEntry where
  path : Option String
  ds_type : Option String
  data_files : Option (List String)
deriving DecidableEq

/-- The `trl` section of the config: reward-function references and weights. -/
structure TrlSection where
  reward_funcs : List String
  reward_weights : List ℚ
deriving DecidableEq

/-- The configuration document, restricted to the fields `create_config` writes.
`special_tokens_pad` is the `pad_token` entry of `special_tokens` (line 182). -/
structure Config where
  datasets : List DatasetEntry
  base_model : String
  mlflow_experiment_name : String
  output_dir : String
  wandb_runid : Option String
  wandb_name : Option String
  wandb_mode : Option String
  rl : Option String
  trl : TrlSection
  special_tokens_pad : Option String
  val_set_size : ℚ
deriving DecidableEq

/-- The two tokenizer fields this program reads (external collaborator). -/
structure Tokenizer where
  pad_token_id : Option Nat
  eos_token_id : Option Nat
  eos_token : String
deriving DecidableEq

/-- Modelled from the spec: the local data directory
`train_cst.AXOLOTL_DIRECTORIES["data"]` (trainer.constants is not under `src/`). -/
def AXOLOTL_DATA_DIR : String := "/workspace/axolotl/data"

/-- Modelled from the spec: the task-family tags `INSTRUCT`/`DPO`/`GRPO` imported
from `customized_config` (not under `src/`); their exact values are immaterial. -/
def INSTRUCT : String := "instruct"

/-- Modelled from the spec: the `DPO` task-family tag from `customized_config`. -/
def DPO : String := "dpo"

/-- Modelled from the spec: the `GRPO` task-family tag from `customized_config`. -/
def GRPO : String := "grpo"

/-- `os.path.basename`: the final path component. -/
def basename (p : String) : String :=
  (p.splitOn "/").getLastD p

/-- The collaborators `create_config` calls whose code is not under `src/`:
theorems quantify over their behaviour. `create_reward_funcs_file` takes the
list of reward-function sources and the task id and returns the generated
module name and the generated per-source function names. -/
structure CollabFns where
  create_dataset_entry : String → DatasetType → String → DatasetEntry
  update_flash_attention : Config → String → Config
  customize_config : Config → String → String → String → Config
  create_reward_funcs_file : List String → String → String × List String
  get_text_base_model_path : String → String
  tokenizer_of : String → Tokenizer

/-- Lines 162-169: the task-family tag computed at line 184 of the source
(`DPO if isinstance(..., DpoDatasetType) else GRPO if ... else INSTRUCT`). -/
def task_family_tag : DatasetType → String
  | .dpoT _ => DPO
  | .grpoT _ => GRPO
  | .instructT _ => INSTRUCT

/-- Lines 172-178: the body of the non-`hf` dataset-entry rewrite loop —
`ds_type` forced to `"json"`, `path` replaced by the local data directory only
when the entry already has a `path` key, `data_files` set to the dataset's
base name. -/
def rewrite_dataset_entry (dataset : String) (ds : DatasetEntry) : DatasetEntry :=
  let ds := { ds with ds_type := some "json" }
  let ds := if ds.path.isSome then { ds with path := some AXOLOTL_DATA_DIR } else ds
  { ds with data_files := some [basename dataset] }

/-- Lines 134-189: `create_config`, as a pure function from the loaded base
template `base` and the collaborators to the persisted document. The stages
follow the source order: datasets entry (141), model path and run fields
(142-146), wandb fields (148-156), flash-attention adjustment (158), task
branch rl/trl (160-169), non-`hf` dataset rewrite (171-178), pad-token
resolution (180-182), `customize_config` (184-185), `val_set_size := 0` (186). -/
def create_config (fns : CollabFns) (base : Config) (task_id model dataset : String)
    (dataset_type : DatasetType) (file_format : String) (output_dir : String)
    (expected_repo_name : String) (log_wandb : Bool) : Config :=
  let config := { base with
    datasets := [fns.create_dataset_entry dataset dataset_type file_format] }
  let model_path := fns.get_text_base_model_path model
  let config := { config with
    base_model := model_path
    mlflow_experiment_name := dataset
    output_dir := output_dir }
  let config :=
    if log_wandb then
      { config with
        wandb_runid := some (task_id ++ "_" ++ expected_repo_name)
        wandb_name := some (task_id ++ "_" ++ expected_repo_name)
        wandb_mode := some "offline" }
    else
      { config with wandb_runid := none, wandb_name := none, wandb_mode := none }
  let config := fns.update_flash_attention config model
  let config :=
    match dataset_type with
    | .dpoT _ => { config with rl := some "dpo" }
    | .grpoT g =>
        let fr := fns.create_reward_funcs_file
          (g.reward_functions.map (fun r => r.reward_func)) task_id
        { config with trl :=
          { reward_funcs := fr.2.map (fun n => fr.1 ++ "." ++ n)
            reward_weights := g.reward_functions.map (fun r => r.reward_weight) } }
    | .instructT _ => config
  let config :=
    if file_format ≠ HF_VALUE then
      { config with datasets := config.datasets.map (rewrite_dataset_entry dataset) }
    else config
  let tok := fns.tokenizer_of model_path
  let config :=
    if tok.pad_token_id = none ∧ tok.eos_token_id ≠ none then
      { config with special_tokens_pad := some tok.eos_token }
    else config
  let config := fns.customize_config config (task_family_tag dataset_type) model_path model
  { config with val_set_size := 0 }

/-! ## The metadata patcher (`patch_model_metadata`, lines 83-122).

Its filesystem interactions are modelled by an oracle describing, for the two
files under the output directory, whether each exists and what each read/write
does (`Except.error` models a raised I/O or JSON exception). -/

/-- The `adapter_config.json` sidecar: the field the patcher rewrites plus the
untouched remainder of the JSON object. -/
structure AdapterConfig where
  base_model_name_or_path : Option String
  extra : List (String × String)
deriving DecidableEq

/-- Oracle for the filesystem state and behaviour the metadata patcher sees. -/
structure MetadataFs where
  adapter_config_exists : Bool
  read_adapter_config : Except String AdapterConfig
  write_adapter_config : AdapterConfig → Except String Unit
  readme_exists : Bool
  read_readme : Except String (List String)
  write_readme : List String → Except String Unit

/-- Lines 106-111: the per-line README rewrite — a line whose stripped form
starts with `base_model:` is replaced by the canonical base-model line. -/
def patch_readme_line (base_model_id : String) (line : String) : String :=
  if (line.trim).startsWith "base_model:" then "base_model: " ++ base_model_id
  else line

/-- Lines 84-118: the body of the `try` block — rewrite the sidecar field if the
file exists, then rewrite the README lines if that file exists; returns the log
messages printed, or the first raised error. -/
def patch_model_metadata_body (fs : MetadataFs) (base_model_id : String) :
    Except String (List String) :=
  (if fs.adapter_config_exists then
    (fs.read_adapter_config).bind (fun cfg =>
      (fs.write_adapter_config
          { cfg with base_model_name_or_path := some base_model_id }).map
        (fun _ => ["Updated adapter_config.json with base_model: " ++ base_model_id]))
  else Except.ok [" adapter_config.json not found"]).bind (fun log1 =>
    if fs.readme_exists then
      (fs.read_readme).bind (fun lines =>
        (fs.write_readme (lines.map (patch_readme_line base_model_id))).map
          (fun _ => log1 ++ ["Updated README.md with base_model: " ++ base_model_id]))
    else Except.ok (log1 ++ ["README.md not found"]))

/-- Lines 83-122: `patch_model_metadata` — the body wrapped in the
`try ... except Exception` that logs any failure and returns normally.
The result is `Except.ok` of the printed log; an `Except.error` result would
model an exception escaping to the caller. -/
def patch_model_metadata (fs : MetadataFs) (output_dir base_model_id : String) :
    Except String (List String) :=
  match patch_model_metadata_body fs base_model_id, output_dir with
  | .ok log, _ => .ok log
  | .error e, _ => .ok ["Error updating metadata: " ++ e]

/-! ## The main control flow (`main`, lines 192-278) and the Trainer patch.

`main` is modelled per process as the ordered list of externally visible
effects it performs plus its outcome.  Argparse validation of `--task-type`
and `--file-format` (lines 199-200) happens first and exits the process,
before any effect, when a choice is invalid. -/

/-- The result of `json.loads` on the `--dataset-type` payload together with
whether the parsed dict matches each variant shape: `malformedJson` models a
payload `json.loads` raises on; for a parsed dict, `asX = none` models the
variant constructor `X(**dict)` raising on a shape mismatch. -/
inductive DatasetTypePayload
  | malformedJson (raw : String)
  | dict (asInstruct : Option InstructTextDatasetType) (asDpo : Option DpoDatasetType)
      (asGrpo : Option GrpoDatasetType)
deriving DecidableEq

/-- Lines 218-230: build the dataset-type object inside the `try` block.
Any exception becomes the `sys.exit` message of line 230; an unsupported tag
reaching the `else` exits with the line-228 message (a `SystemExit` is not an
`Exception`, so the `except` clause does not catch it). -/
def parse_dataset_type (task_type : String) (payload : DatasetTypePayload) :
    Except String DatasetType :=
  match payload with
  | .malformedJson _ => .error "Error creating dataset type object: invalid JSON"
  | .dict asInstruct asDpo asGrpo =>
      if task_type = DPOTASK_VALUE then
        match asDpo with
        | some t => .ok (.dpoT t)
        | none => .error "Error creating dataset type object: shape mismatch"
      else if task_type = INSTRUCTTEXTTASK_VALUE then
        match asInstruct with
        | some t => .ok (.instructT t)
        | none => .error "Error creating dataset type object: shape mismatch"
      else if task_type = GRPOTASK_VALUE then
        match asGrpo with
        | some t => .ok (.grpoT t)
        | none => .error "Error creating dataset type object: shape mismatch"
      else .error ("Unsupported task type: " ++ task_type)

/-- The command-line arguments of `main` (lines 195-202).
`expected_repo_name` is kept as the string `argparse` hands over. -/
structure Args where
  task_id : String
  model : String
  dataset : String
  dataset_type_payload : DatasetTypePayload
  task_type : String
  file_format : String
  expected_repo_name : String
  hours_to_complete : ℚ
deriving DecidableEq

/-- Per-process environment: the process's own wall-clock reading at line 256,
whether `is_main_process(LOCAL_RANK)` holds, and the visible GPU count. -/
structure ProcEnv where
  clock_now : ℚ
  is_main_process : Bool
  gpu_count : Nat
deriving DecidableEq

/-- Line 256-257: the end-of-budget timestamp a process computes from its own
clock — `now + timedelta(hours=h)`. -/
def end_time_stamp (clock_now : ℚ) (hours_to_complete : ℚ) : ℚ :=
  clock_now + hours_to_complete * 3600

/-- The externally visible effects of one process's `main`, in program order. -/
inductive Event
  | mkdir_submission
  | mkdir_output
  | mkdir_axolotl_dirs
  | adapt_columns
  | copy_dataset
  | write_config
  | init_process_group
  | dist_barrier
  | compute_deadline (t : ℚ)
  | patch_trainer_init
  | run_training (deadline : ℚ)
deriving DecidableEq

/-- Recogniser for the two events the deadline lifecycle is about: the
computation of the end-of-budget timestamp and the start of training. -/
def deadline_or_training : Event → Bool
  | .compute_deadline _ => true
  | .run_training _ => true
  | _ => false

/-- How one process's `main` terminates. -/
inductive Outcome
  | argparse_error
  | exited (msg : String)
  | ran
deriving DecidableEq

/-- Lines 47-54: `setup_distributed` — process-group init and barrier only when
more than one GPU is visible. -/
def dist_events (env : ProcEnv) : List Event :=
  if env.gpu_count > 1 then [.init_process_group, .dist_barrier] else []

/-- Lines 252-278: the tail of `main` every surviving process runs — distributed
bootstrap, the per-process deadline computation, the Trainer patch, and the
handoff to `do_cli`, whose patched Trainer consults the captured deadline. -/
def main_tail (args : Args) (env : ProcEnv) : List Event :=
  dist_events env ++
    [.compute_deadline (end_time_stamp env.clock_now args.hours_to_complete),
     .patch_trainer_init,
     .run_training (end_time_stamp env.clock_now args.hours_to_complete)]

/-- Lines 192-278: one process's `main` as (effects, outcome). Order of the
source: argparse validation (199-200), submission/output directory creation
(207-212), then — on the main process only — axolotl directory creation
(216-217), dataset-type parsing with `sys.exit` on failure (218-230), column
adaptation for the two non-default variants (233-236), dataset copy (238),
config creation (240-249); finally the common tail (252-278). -/
def runMain (args : Args) (env : ProcEnv) : List Event × Outcome :=
  if args.task_type ∈ TASK_TYPE_CHOICES ∧ args.file_format ∈ FILE_FORMAT_CHOICES then
    let pre : List Event := [.mkdir_submission, .mkdir_output]
    if env.is_main_process then
      let pre := pre ++ [.mkdir_axolotl_dirs]
      match parse_dataset_type args.task_type args.dataset_type_payload with
      | .error msg => (pre, .exited msg)
      | .ok _ =>
          let adapt : List Event :=
            if args.task_type = DPOTASK_VALUE ∨ args.task_type = GRPOTASK_VALUE then
              [.adapt_columns]
            else []
          (pre ++ adapt ++ [.copy_dataset, .write_config] ++ main_tail args env, .ran)
    else
      (pre ++ main_tail args env, .ran)
  else ([], .argparse_error)

/-! ## The Trainer construction patch (`patched_init`, lines 254-272). -/

/-- Which eval/save callback implementation is appended. -/
inductive CallbackVariant
  | grpoCallback
  | standardCallback
deriving DecidableEq

/-- One callback instance appended by the patched initializer, with the
arguments it is constructed from (lines 264-268). -/
structure CallbackInstance where
  variant : CallbackVariant
  end_time : ℚ
  save_before_remaining_time : ℚ
  submission_dir : String
  output_dir : String
  original_model_name : String
deriving DecidableEq

/-- A throwaway default used with `List.getLastD`. -/
def default_callback : CallbackInstance :=
  { variant := .standardCallback, end_time := 0, save_before_remaining_time := 0
    submission_dir := "", output_dir := "", original_model_name := "" }

/-- The values the `patched_init` closure captures from `main`: the original
task type and model name taken from the CLI arguments at lines 204-205 (before
any config is built or rewritten), the computed end time, and the two
checkpoint directories. -/
structure PatchClosure where
  original_task_type : String
  original_model_name : String
  end_time : ℚ
  submission_dir : String
  output_dir : String
deriving DecidableEq

/-- Modelled from the spec: `train_paths.get_checkpoints_output_path` (not under
`src/`) — the per-run checkpoint directory keyed by task id and repo name. -/
def get_checkpoints_output_path (task_id repo_name : String) : String :=
  "/checkpoints/" ++ task_id ++ "/" ++ repo_name

/-- Lines 204-212 and 256-257: the closure `main` builds before patching. -/
def main_patch_closure (args : Args) (env : ProcEnv) : PatchClosure :=
  { original_task_type := args.task_type
    original_model_name := args.model
    end_time := end_time_stamp env.clock_now args.hours_to_complete
    submission_dir := get_checkpoints_output_path args.task_id args.expected_repo_name
    output_dir := get_checkpoints_output_path args.task_id
      (args.expected_repo_name ++ "_temp") }

/-- Lines 260-270: `patched_init` — appends to the incoming callback list one
eval/save callback, the GRPO variant exactly when the captured original task
type is the GRPO tag, built with a `WhenToEvalHandler(end_time, 5)`. -/
def patched_init (cl : PatchClosure) (callbacks : List CallbackInstance) :
    List CallbackInstance :=
  if cl.original_task_type = GRPOTASK_VALUE then
    callbacks ++ [{ variant := .grpoCallback, end_time := cl.end_time
                    save_before_remaining_time := 5
                    submission_dir := cl.submission_dir, output_dir := cl.output_dir
                    original_model_name := cl.original_model_name }]
  else
    callbacks ++ [{ variant := .standardCallback, end_time := cl.end_time
                    save_before_remaining_time := 5
                    submission_dir := cl.submission_dir, output_dir := cl.output_dir
                    original_model_name := cl.original_model_name }]

/-! ## Shared concrete sample inputs for witnesses -/

/-- A concrete GRPO invocation used by witnesses. -/
def sample_grpo_args : Args :=
  { task_id := "task1", model := "org/model", dataset := "/data/ds.json"
    dataset_type_payload :=
      .dict none none (some { reward_functions := [{ reward_func := "def reward(c): return 1.0", reward_weight := 1 }] })
    task_type := "GrpoTask", file_format := "s3", expected_repo_name := "repo"
    hours_to_complete := 2 }

/-- A concrete main-process environment used by witnesses. -/
def sample_env : ProcEnv :=
  { clock_now := 100, is_main_process := true, gpu_count := 2 }

/-- A concrete reward-optimization record with two (source, weight) pairs. -/
def sample_grpo : GrpoDatasetType :=
  { reward_functions :=
      [{ reward_func := "def reward_one(c): return 1.0", reward_weight := 1 },
       { reward_func := "def reward_two(c): return 0.0", reward_weight := 1/2 }] }

/-- A concrete behaviour for the collaborator functions, used by witnesses:
the dataset entry carries the dataset as its `path`, flash-attention and
customize leave the document unchanged, the generator returns one name per
source, and the tokenizer has an eos token but no pad token. -/
def sample_fns : CollabFns :=
  { create_dataset_entry := fun dataset _ _ =>
      { path := some dataset, ds_type := none, data_files := none }
    update_flash_attention := fun c _ => c
    customize_config := fun c _ _ _ => c
    create_reward_funcs_file := fun sources task_id =>
      ("rewards_" ++ task_id,
       (List.range sources.length).map (fun i => "reward_" ++ toString i))
    get_text_base_model_path := fun m => "/cache/models/" ++ m
    tokenizer_of := fun _ =>
      { pad_token_id := none, eos_token_id := some 2, eos_token := "</s>" } }

/-- A concrete tokenizer-with-both-tokens behaviour, for the no-override case. -/
def sample_fns_both_tokens : CollabFns :=
  { sample_fns with tokenizer_of := fun _ =>
      { pad_token_id := some 0, eos_token_id := some 2, eos_token := "</s>" } }

/-- A concrete base template document used by witnesses. -/
def sample_base : Config :=
  { datasets := [], base_model := "base", mlflow_experiment_name := ""
    output_dir := "", wandb_runid := none, wandb_name := none, wandb_mode := none
    rl := none, trl := { reward_funcs := [], reward_weights := [] }
    special_tokens_pad := none, val_set_size := 1/20 }

/-- A concrete supervisor: a 7200-second budget with a 300-second margin,
so the trigger threshold is 6900. -/
def sample_ctx : SupervisorCtx :=
  { end_time := 7200, save_before_remaining_time := 300 }

/-- A concrete step-boundary call sequence with non-decreasing times: the first
call at or past the threshold is the third, and two more follow. -/
def sample_calls : List (ℚ × Bool) :=
  [(0, false), (3600, true), (6900, false), (7000, true), (7100, false)]

/-- A concrete invocation whose dataset-type payload is malformed JSON. -/
def sample_malformed_args : Args :=
  { task_id := "task2", model := "org/model", dataset := "/data/ds.json"
    dataset_type_payload := .malformedJson "not a json object"
    task_type := "DpoTask", file_format := "json", expected_repo_name := "repo"
    hours_to_complete := 2 }

end TextTrainer

namespace TextTrainer

/-! ## Theorems -/

/-- C8: every configuration document produced by `create_config`, for every
task-type variant, every combination of inputs, and every behaviour of the
collaborator functions, has `val_set_size = 0` at the moment it is persisted. -/
theorem val_set_size_always_zero (fns : CollabFns) (base : Config)
    (task_id model dataset : String) (dataset_type : DatasetType)
    (file_format output_dir expected_repo_name : String) (log_wandb : Bool) :
    (create_config fns base task_id model dataset dataset_type file_format
      output_dir expected_repo_name log_wandb).val_set_size = 0 := rfl

/-- C9: `patch_model_metadata` never propagates an error to its caller — for
every filesystem behaviour (including missing files and failing reads, parses
and writes) and every output directory and model identifier, it returns
normally with a log, never an error. -/
theorem patch_model_metadata_never_fails (fs : MetadataFs)
    (output_dir base_model_id : String) :
    ∃ log, patch_model_metadata fs output_dir base_model_id = Except.ok log := by
  cases h : patch_model_metadata_body fs base_model_id with
  | ok log => exact ⟨log, by simp [patch_model_metadata, h]⟩
  | error e => exact ⟨["Error updating metadata: " ++ e],
      by simp [patch_model_metadata, h]⟩

/-- C3: each Trainer construction appends exactly one eval/save callback, whose
variant is the GRPO-specific one if and only if the original task type captured
from the CLI arguments is the GRPO tag; and the installed variant is a function
of the original task type alone — two invocations agreeing on the original task
type install the same variant whatever else (model, payload, clock, callback
list, any later config rewriting input) differs. -/
theorem callback_selected_once_from_original_task_type (args : Args) (env : ProcEnv)
    (callbacks : List CallbackInstance) :
    (patched_init (main_patch_closure args env) callbacks).length = callbacks.length + 1
    ∧ (((patched_init (main_patch_closure args env) callbacks).getLastD
          default_callback).variant = CallbackVariant.grpoCallback
        ↔ args.task_type = GRPOTASK_VALUE)
    ∧ (∀ (args2 : Args) (env2 : ProcEnv) (callbacks2 : List CallbackInstance),
        args2.task_type = args.task_type →
        ((patched_init (main_patch_closure args2 env2) callbacks2).getLastD
            default_callback).variant
          = ((patched_init (main_patch_closure args env) callbacks).getLastD
              default_callback).variant) := by
  refine ⟨?_, ?_, ?_⟩
  · by_cases h : args.task_type = GRPOTASK_VALUE <;>
      simp [patched_init, main_patch_closure, h]
  · by_cases h : args.task_type = GRPOTASK_VALUE <;>
      simp [patched_init, main_patch_closure, h, List.getLastD_concat]
  · intro args2 env2 callbacks2 he
    by_cases h : args.task_type = GRPOTASK_VALUE <;>
      simp [patched_init, main_patch_closure, he, h, List.getLastD_concat]

/-- Witness for C3 at a concrete GRPO invocation. -/
theorem callback_selected_once_witness :
    (patched_init (main_patch_closure sample_grpo_args sample_env) []).length = 0 + 1
    ∧ (((patched_init (main_patch_closure sample_grpo_args sample_env) []).getLastD
          default_callback).variant = CallbackVariant.grpoCallback
        ↔ sample_grpo_args.task_type = GRPOTASK_VALUE) :=
  ⟨(callback_selected_once_from_original_task_type sample_grpo_args sample_env []).1,
   (callback_selected_once_from_original_task_type sample_grpo_args sample_env []).2.1⟩

/-- C5: for a reward-optimization invocation with N (source, weight) pairs, the
produced document's reward-function reference list is exactly the generated
function names qualified by the generated module name, in order, and the weight
list is exactly the pairs' weights, in order; given the generator's invariant
that it returns one name per source, both lists have length N. Quantified over
any `customize_config` that, per the spec, touches only hyperparameters (here:
preserves the `trl` section). -/
theorem grpo_reward_lists_aligned (fns : CollabFns) (base : Config)
    (task_id model dataset : String) (g : GrpoDatasetType)
    (file_format output_dir expected_repo_name : String) (log_wandb : Bool)
    (hcust : ∀ c a b d, (fns.customize_config c a b d).trl = c.trl)
    (hgen : ((fns.create_reward_funcs_file
        (g.reward_functions.map (fun r => r.reward_func)) task_id).2).length
      = g.reward_functions.length) :
    (create_config fns base task_id model dataset (.grpoT g) file_format
        output_dir expected_repo_name log_wandb).trl.reward_funcs
      = ((fns.create_reward_funcs_file
            (g.reward_functions.map (fun r => r.reward_func)) task_id).2).map
          (fun n => (fns.create_reward_funcs_file
            (g.reward_functions.map (fun r => r.reward_func)) task_id).1 ++ "." ++ n)
    ∧ (create_config fns base task_id model dataset (.grpoT g) file_format
        output_dir expected_repo_name log_wandb).trl.reward_weights
      = g.reward_functions.map (fun r => r.reward_weight)
    ∧ (create_config fns base task_id model dataset (.grpoT g) file_format
        output_dir expected_repo_name log_wandb).trl.reward_funcs.length
      = g.reward_functions.length
    ∧ (create_config fns base task_id model dataset (.grpoT g) file_format
        output_dir expected_repo_name log_wandb).trl.reward_weights.length
      = g.reward_functions.length := by
  have htrl : (create_config fns base task_id model dataset (.grpoT g) file_format
      output_dir expected_repo_name log_wandb).trl
      = { reward_funcs := ((fns.create_reward_funcs_file
            (g.reward_functions.map (fun r => r.reward_func)) task_id).2).map
            (fun n => (fns.create_reward_funcs_file
              (g.reward_functions.map (fun r => r.reward_func)) task_id).1 ++ "." ++ n)
          reward_weights := g.reward_functions.map (fun r => r.reward_weight) } := by
    simp only [create_config]
    rw [hcust]
    split <;> split <;> rfl
  refine ⟨?_, ?_, ?_, ?_⟩
  · rw [htrl]
  · rw [htrl]
  · rw [htrl]; simpa using hgen
  · rw [htrl]; simp

/-- The `special_tokens` pad override the produced document carries: set to the
eos token exactly when the tokenizer lacks a pad token but has an eos token,
otherwise whatever the base template carried — for any flash-attention and
customize collaborators that leave `special_tokens` alone. -/
theorem create_config_pad_char (fns : CollabFns) (base : Config)
    (task_id model dataset : String) (dataset_type : DatasetType)
    (file_format output_dir expected_repo_name : String) (log_wandb : Bool)
    (hflash : ∀ c m, (fns.update_flash_attention c m).special_tokens_pad
      = c.special_tokens_pad)
    (hcust : ∀ c a b d, (fns.customize_config c a b d).special_tokens_pad
      = c.special_tokens_pad) :
    (create_config fns base task_id model dataset dataset_type file_format
        output_dir expected_repo_name log_wandb).special_tokens_pad
      = (if (fns.tokenizer_of (fns.get_text_base_model_path model)).pad_token_id = none
            ∧ (fns.tokenizer_of (fns.get_text_base_model_path model)).eos_token_id ≠ none
         then some (fns.tokenizer_of (fns.get_text_base_model_path model)).eos_token
         else base.special_tokens_pad) := by
  by_cases hc : (fns.tokenizer_of (fns.get_text_base_model_path model)).pad_token_id = none
      ∧ (fns.tokenizer_of (fns.get_text_base_model_path model)).eos_token_id ≠ none
  · simp only [create_config]
    rw [hcust, if_pos hc, if_pos hc]
  · simp only [create_config]
    rw [hcust, if_neg hc, if_neg hc]
    cases dataset_type <;> split <;> simp only [hflash] <;> split <;> rfl

/-- The `datasets` list of the produced document: the single created entry,
rewritten exactly when the file format is not the registry-hosted `hf` tag —
for any flash-attention and customize collaborators that leave `datasets`
alone. -/
theorem create_config_datasets_char (fns : CollabFns) (base : Config)
    (task_id model dataset : String) (dataset_type : DatasetType)
    (file_format output_dir expected_repo_name : String) (log_wandb : Bool)
    (hflash : ∀ c m, (fns.update_flash_attention c m).datasets = c.datasets)
    (hcust : ∀ c a b d, (fns.customize_config c a b d).datasets = c.datasets) :
    (create_config fns base task_id model dataset dataset_type file_format
        output_dir expected_repo_name log_wandb).datasets
      = (if file_format ≠ HF_VALUE
         then [rewrite_dataset_entry dataset
            (fns.create_dataset_entry dataset dataset_type file_format)]
         else [fns.create_dataset_entry dataset dataset_type file_format]) := by
  by_cases hf : file_format ≠ HF_VALUE
  · simp only [create_config]
    rw [hcust, if_pos hf, if_pos hf]
    split <;> cases dataset_type <;> simp only [hflash] <;> split <;> rfl
  · simp only [create_config]
    rw [hcust, if_neg hf, if_neg hf]
    split <;> cases dataset_type <;> simp only [hflash] <;> split <;> rfl

/-- What the non-`hf` rewrite does to one dataset entry: forces `ds_type` to
`"json"`, sets the file list to the dataset's base name, and replaces `path`
with the local data directory exactly when a `path` key is present. -/
theorem rewrite_dataset_entry_spec (dataset : String) (ds : DatasetEntry) :
    (rewrite_dataset_entry dataset ds).ds_type = some "json"
    ∧ (rewrite_dataset_entry dataset ds).data_files = some [basename dataset]
    ∧ (rewrite_dataset_entry dataset ds).path
        = (if ds.path.isSome then some AXOLOTL_DATA_DIR else ds.path) := by
  unfold rewrite_dataset_entry
  split <;> simp_all

/-- Witness for C5 at a concrete two-pair reward-optimization invocation. -/
theorem grpo_reward_lists_aligned_witness :
    (create_config sample_fns sample_base "task1" "org/model" "/data/ds.json"
        (.grpoT sample_grpo) "s3" "/out" "repo" true).trl.reward_weights
      = sample_grpo.reward_functions.map (fun r => r.reward_weight)
    ∧ (create_config sample_fns sample_base "task1" "org/model" "/data/ds.json"
        (.grpoT sample_grpo) "s3" "/out" "repo" true).trl.reward_funcs.length
      = sample_grpo.reward_functions.length :=
  ⟨(grpo_reward_lists_aligned sample_fns sample_base "task1" "org/model"
      "/data/ds.json" sample_grpo "s3" "/out" "repo" true
      (fun _ _ _ _ => rfl) (by simp [sample_fns])).2.1,
   (grpo_reward_lists_aligned sample_fns sample_base "task1" "org/model"
      "/data/ds.json" sample_grpo "s3" "/out" "repo" true
      (fun _ _ _ _ => rfl) (by simp [sample_fns])).2.2.1⟩

/-- C6: if the model's tokenizer has no pad token but has an eos token, the
produced document's pad override equals the eos token; if the tokenizer already
has a pad token, the produced document carries no pad override (given, per the
spec, a base template without one and collaborators that leave `special_tokens`
alone); and in every case the override is either absent or the eos token —
never an invented token. -/
theorem pad_token_resolution (fns : CollabFns) (base : Config)
    (task_id model dataset : String) (dataset_type : DatasetType)
    (file_format output_dir expected_repo_name : String) (log_wandb : Bool)
    (hflash : ∀ c m, (fns.update_flash_attention c m).special_tokens_pad
      = c.special_tokens_pad)
    (hcust : ∀ c a b d, (fns.customize_config c a b d).special_tokens_pad
      = c.special_tokens_pad)
    (hbase : base.special_tokens_pad = none) :
    ((fns.tokenizer_of (fns.get_text_base_model_path model)).pad_token_id = none →
      (fns.tokenizer_of (fns.get_text_base_model_path model)).eos_token_id ≠ none →
      (create_config fns base task_id model dataset dataset_type file_format
          output_dir expected_repo_name log_wandb).special_tokens_pad
        = some (fns.tokenizer_of (fns.get_text_base_model_path model)).eos_token)
    ∧ ((fns.tokenizer_of (fns.get_text_base_model_path model)).pad_token_id ≠ none →
      (create_config fns base task_id model dataset dataset_type file_format
          output_dir expected_repo_name log_wandb).special_tokens_pad = none)
    ∧ ((create_config fns base task_id model dataset dataset_type file_format
          output_dir expected_repo_name log_wandb).special_tokens_pad = none
        ∨ (create_config fns base task_id model dataset dataset_type file_format
          output_dir expected_repo_name log_wandb).special_tokens_pad
          = some (fns.tokenizer_of (fns.get_text_base_model_path model)).eos_token) := by
  have hch := create_config_pad_char fns base task_id model dataset dataset_type
    file_format output_dir expected_repo_name log_wandb hflash hcust
  refine ⟨fun h1 h2 => ?_, fun h => ?_, ?_⟩
  · rw [hch, if_pos ⟨h1, h2⟩]
  · rw [hch, if_neg (fun hc => h hc.1), hbase]
  · rw [hch]
    split
    · exact Or.inr rfl
    · exact Or.inl hbase

/-- Witness for C6: with the no-pad/has-eos tokenizer the produced document's
pad override is the eos token; with the both-tokens tokenizer it is absent. -/
theorem pad_token_resolution_witness :
    (create_config sample_fns sample_base "task1" "org/model" "/data/ds.json"
        (.grpoT sample_grpo) "s3" "/out" "repo" true).special_tokens_pad
      = some "</s>"
    ∧ (create_config sample_fns_both_tokens sample_base "task1" "org/model"
        "/data/ds.json" (.grpoT sample_grpo) "s3" "/out" "repo"
        true).special_tokens_pad = none :=
  ⟨(pad_token_resolution sample_fns sample_base "task1" "org/model" "/data/ds.json"
      (.grpoT sample_grpo) "s3" "/out" "repo" true
      (fun _ _ => rfl) (fun _ _ _ _ => rfl) rfl).1 rfl (by simp [sample_fns]),
   (pad_token_resolution sample_fns_both_tokens sample_base "task1" "org/model"
      "/data/ds.json" (.grpoT sample_grpo) "s3" "/out" "repo" true
      (fun _ _ => rfl) (fun _ _ _ _ => rfl) rfl).2.1
      (by simp [sample_fns_both_tokens, sample_fns])⟩

/-- C7: for the tabular (`csv`) or `json` file format, every dataset entry of
the produced document has its `path` field replaced with the local data
directory and its file list is exactly the input dataset file's base name
(given an entry created with a `path` field and collaborators that leave
`datasets` alone). -/
theorem tabular_json_dataset_rewrite (fns : CollabFns) (base : Config)
    (task_id model dataset : String) (dataset_type : DatasetType)
    (file_format output_dir expected_repo_name : String) (log_wandb : Bool)
    (hff : file_format = "csv" ∨ file_format = "json")
    (hflash : ∀ c m, (fns.update_flash_attention c m).datasets = c.datasets)
    (hcust : ∀ c a b d, (fns.customize_config c a b d).datasets = c.datasets)
    (hpath : (fns.create_dataset_entry dataset dataset_type file_format).path.isSome) :
    ∀ e ∈ (create_config fns base task_id model dataset dataset_type file_format
        output_dir expected_repo_name log_wandb).datasets,
      e.path = some AXOLOTL_DATA_DIR ∧ e.data_files = some [basename dataset] := by
  have hne : file_format ≠ HF_VALUE := by
    rcases hff with h | h <;> simp [h, HF_VALUE]
  have hch := create_config_datasets_char fns base task_id model dataset dataset_type
    file_format output_dir expected_repo_name log_wandb hflash hcust
  rw [hch, if_pos hne]
  intro e he
  rw [List.mem_singleton] at he
  subst he
  have hs := rewrite_dataset_entry_spec dataset
    (fns.create_dataset_entry dataset dataset_type file_format)
  exact ⟨by rw [hs.2.2, if_pos hpath], hs.2.1⟩

/-- Witness for C7 at a concrete `csv` invocation: the one dataset entry of the
produced document points at the local data directory and the base name. -/
theorem tabular_json_dataset_rewrite_witness :
    (rewrite_dataset_entry "/data/ds.json"
        (sample_fns.create_dataset_entry "/data/ds.json"
          (DatasetType.grpoT sample_grpo) "csv")).path = some AXOLOTL_DATA_DIR
    ∧ (rewrite_dataset_entry "/data/ds.json"
        (sample_fns.create_dataset_entry "/data/ds.json"
          (DatasetType.grpoT sample_grpo) "csv")).data_files
      = some [basename "/data/ds.json"] :=
  tabular_json_dataset_rewrite sample_fns sample_base "task1" "org/model"
    "/data/ds.json" (.grpoT sample_grpo) "csv" "/out" "repo" true
    (Or.inl rfl) (fun _ _ => rfl) (fun _ _ _ _ => rfl) (by simp [sample_fns])
    (rewrite_dataset_entry "/data/ds.json"
      (sample_fns.create_dataset_entry "/data/ds.json"
        (DatasetType.grpoT sample_grpo) "csv"))
    (by
      rw [create_config_datasets_char sample_fns sample_base "task1" "org/model"
        "/data/ds.json" (.grpoT sample_grpo) "csv" "/out" "repo" true
        (fun _ _ => rfl) (fun _ _ _ _ => rfl), if_pos (by decide)]
      exact List.mem_singleton.2 rfl)

/-- C10: for every file format other than `hf` — including `s3` — the produced
document's dataset list is exactly the created entry passed through the rewrite,
and the rewrite forces `ds_type` to `"json"`, sets the file list to exactly the
input file's base name, replaces `path` with the local data directory when a
`path` field is present, and adds no `path` to an entry without one. -/
theorem non_hf_dataset_rewrite (fns : CollabFns) (base : Config)
    (task_id model dataset : String) (dataset_type : DatasetType)
    (file_format output_dir expected_repo_name : String) (log_wandb : Bool)
    (hff : file_format ≠ HF_VALUE)
    (hflash : ∀ c m, (fns.update_flash_attention c m).datasets = c.datasets)
    (hcust : ∀ c a b d, (fns.customize_config c a b d).datasets = c.datasets) :
    (create_config fns base task_id model dataset dataset_type file_format
        output_dir expected_repo_name log_wandb).datasets
      = [rewrite_dataset_entry dataset
          (fns.create_dataset_entry dataset dataset_type file_format)]
    ∧ ∀ ds : DatasetEntry,
        (rewrite_dataset_entry dataset ds).ds_type = some "json"
        ∧ (rewrite_dataset_entry dataset ds).data_files = some [basename dataset]
        ∧ (ds.path.isSome →
            (rewrite_dataset_entry dataset ds).path = some AXOLOTL_DATA_DIR)
        ∧ (ds.path = none → (rewrite_dataset_entry dataset ds).path = none) := by
  constructor
  · rw [create_config_datasets_char fns base task_id model dataset dataset_type
      file_format output_dir expected_repo_name log_wandb hflash hcust, if_pos hff]
  · intro ds
    have hs := rewrite_dataset_entry_spec dataset ds
    refine ⟨hs.1, hs.2.1, fun hp => ?_, fun hp => ?_⟩
    · rw [hs.2.2, if_pos hp]
    · rw [hs.2.2, hp]
      simp

/-- Witness for C10 at a concrete `s3` invocation. -/
theorem non_hf_dataset_rewrite_witness :
    (create_config sample_fns sample_base "task1" "org/model" "/data/ds.json"
        (.grpoT sample_grpo) "s3" "/out" "repo" true).datasets
      = [rewrite_dataset_entry "/data/ds.json"
          (sample_fns.create_dataset_entry "/data/ds.json" (.grpoT sample_grpo) "s3")] :=
  (non_hf_dataset_rewrite sample_fns sample_base "task1" "org/model" "/data/ds.json"
    (.grpoT sample_grpo) "s3" "/out" "repo" true (by decide)
    (fun _ _ => rfl) (fun _ _ _ _ => rfl)).1

/-- A finalized supervisor emits `continueNormally` forever. -/
theorem run_boundaries_finalized (ctx : SupervisorCtx) (calls : List (ℚ × Bool)) :
    run_boundaries ctx true calls
      = (true, calls.map (fun _ => SaveDecision.continueNormally)) := by
  induction calls with
  | nil => rfl
  | cons c rest ih => simp [run_boundaries, on_step_boundary, ih]

/-- `getD` over a constant `continueNormally` list is `continueNormally`. -/
theorem getD_map_continue {α : Type} (l : List α) (j : ℕ) :
    (l.map (fun _ => SaveDecision.continueNormally)).getD j SaveDecision.continueNormally
      = SaveDecision.continueNormally := by
  induction l generalizing j with
  | nil => simp
  | cons a l ih => cases j <;> simp [ih]

/-- From the pending state, at most one emitted decision is the final save. -/
theorem run_boundaries_count_le_one (ctx : SupervisorCtx) (calls : List (ℚ × Bool)) :
    ((run_boundaries ctx false calls).2).countP is_force_final ≤ 1 := by
  induction calls with
  | nil => simp [run_boundaries]
  | cons c rest ih =>
      by_cases hp : is_past_trigger ctx c.1
      · have hdec : (run_boundaries ctx false (c :: rest)).2
            = SaveDecision.forceFinalEvalAndSave
              :: rest.map (fun _ => SaveDecision.continueNormally) := by
          simp [run_boundaries, on_step_boundary, hp, run_boundaries_finalized]
        have h0 : (rest.map
            (fun _ => SaveDecision.continueNormally)).countP is_force_final = 0 := by
          simp [List.countP_eq_zero, is_force_final]
        rw [hdec, List.countP_cons, h0]
        simp [is_force_final]
      · by_cases he : c.2
        · simpa [run_boundaries, on_step_boundary, hp, he, is_force_final] using ih
        · simpa [run_boundaries, on_step_boundary, hp, he, is_force_final] using ih

/-- Once the final save has been emitted, every later decision is
`continueNormally`, from any starting state. -/
theorem run_boundaries_after_final (ctx : SupervisorCtx) :
    ∀ (calls : List (ℚ × Bool)) (finalized : Bool) (i j : ℕ), i < j →
      ((run_boundaries ctx finalized calls).2).getD i SaveDecision.continueNormally
        = SaveDecision.forceFinalEvalAndSave →
      ((run_boundaries ctx finalized calls).2).getD j SaveDecision.continueNormally
        = SaveDecision.continueNormally := by
  intro calls
  induction calls with
  | nil => intro finalized i j _ hfi; simp [run_boundaries] at hfi
  | cons c rest ih =>
      intro finalized i j hij hfi
      cases finalized with
      | true =>
          rw [run_boundaries_finalized] at hfi ⊢
          simpa using getD_map_continue (c :: rest) j
      | false =>
          cases i with
          | zero =>
              cases j with
              | zero => exact absurd hij (by simp)
              | succ j0 =>
                  by_cases hp : is_past_trigger ctx c.1
                  · simp only [run_boundaries, on_step_boundary, hp, if_true,
                      Bool.false_eq_true, if_false] at hfi ⊢
                    rw [run_boundaries_finalized]
                    exact getD_map_continue rest j0
                  · by_cases he : c.2 <;>
                      simp [run_boundaries, on_step_boundary, hp, he] at hfi
          | succ i0 =>
              cases j with
              | zero => exact absurd hij (by simp)
              | succ j0 =>
                  by_cases hp : is_past_trigger ctx c.1
                  · simp only [run_boundaries, on_step_boundary, Bool.false_eq_true,
                      if_false, hp, if_true] at hfi ⊢
                    exact ih true i0 j0 (by omega) hfi
                  · by_cases he : c.2 <;>
                    · simp only [run_boundaries, on_step_boundary, Bool.false_eq_true,
                        if_false, hp, he, if_true] at hfi ⊢
                      exact ih false i0 j0 (by omega) hfi

/-- From the pending state, the first boundary at or past the trigger threshold
is answered with the final forced save. -/
theorem run_boundaries_first_trigger (ctx : SupervisorCtx) :
    ∀ (calls : List (ℚ × Bool)) (i : ℕ), i < calls.length →
      is_past_trigger ctx (calls.getD i (0, false)).1 = true →
      (∀ k : ℕ, k < i → is_past_trigger ctx (calls.getD k (0, false)).1 = false) →
      ((run_boundaries ctx false calls).2).getD i SaveDecision.continueNormally
        = SaveDecision.forceFinalEvalAndSave := by
  intro calls
  induction calls with
  | nil => intro i hi; simp at hi
  | cons c rest ih =>
      intro i hi htrig hbefore
      cases i with
      | zero =>
          simp only [List.getD_cons_zero] at htrig
          simp [run_boundaries, on_step_boundary, htrig]
      | succ i0 =>
          have hp0 : is_past_trigger ctx c.1 = false := by
            have := hbefore 0 (by omega)
            simpa using this
          have htail := ih i0 (by simpa using hi)
            (by simpa using htrig)
            (fun k hk => by simpa using hbefore (k + 1) (by omega))
          by_cases he : c.2 <;>
          · simp only [run_boundaries, on_step_boundary, Bool.false_eq_true, if_false,
              hp0, he, if_true, List.getD_cons_succ]
            exact htail

/-- C2: over any step-boundary call sequence with non-decreasing `now`, a
freshly constructed supervisor returns `forceFinalEvalAndSave` at most once;
once returned, every subsequent call (for any `now`) returns
`continueNormally`; and if some call's `now` is at or past the trigger
threshold (deadline minus safety margin), the first such call is answered with
`forceFinalEvalAndSave` — never skipped. -/
theorem supervisor_final_save_exactly_once (ctx : SupervisorCtx)
    (calls : List (ℚ × Bool))
    (_hmono : List.Chain' (· ≤ ·) (calls.map Prod.fst)) :
    (decisions ctx calls).countP is_force_final ≤ 1
    ∧ (∀ i j : ℕ, i < j →
        (decisions ctx calls).getD i SaveDecision.continueNormally
          = SaveDecision.forceFinalEvalAndSave →
        (decisions ctx calls).getD j SaveDecision.continueNormally
          = SaveDecision.continueNormally)
    ∧ (∀ i : ℕ, i < calls.length →
        is_past_trigger ctx (calls.getD i (0, false)).1 = true →
        (∀ k : ℕ, k < i → is_past_trigger ctx (calls.getD k (0, false)).1 = false) →
        (decisions ctx calls).getD i SaveDecision.continueNormally
          = SaveDecision.forceFinalEvalAndSave) :=
  ⟨run_boundaries_count_le_one ctx calls,
   fun i j hij => run_boundaries_after_final ctx calls false i j hij,
   fun i hi => run_boundaries_first_trigger ctx calls i hi⟩

/-- Witness for C2 on a concrete five-call run past a 7200-second deadline with
a 300-second margin. -/
theorem supervisor_final_save_exactly_once_witness :
    List.Chain' (· ≤ ·) (sample_calls.map Prod.fst)
    ∧ (decisions sample_ctx sample_calls).countP is_force_final ≤ 1 :=
  ⟨by norm_num [sample_calls, List.chain'_cons],
   (supervisor_final_save_exactly_once sample_ctx sample_calls
      (by norm_num [sample_calls, List.chain'_cons])).1⟩

/-- The common tail of `main` computes the deadline once and starts training
with that same value, whatever the distributed bootstrap did. -/
theorem filter_main_tail (args : Args) (env : ProcEnv) :
    (main_tail args env).filter deadline_or_training
      = [Event.compute_deadline (end_time_stamp env.clock_now args.hours_to_complete),
         Event.run_training (end_time_stamp env.clock_now args.hours_to_complete)] := by
  unfold main_tail dist_events
  split <;> rfl

/-- Every run that reaches training has the event shape: a prefix free of
deadline and training events, followed by the common tail. -/
theorem runMain_ran_shape (args : Args) (env : ProcEnv)
    (h : (runMain args env).2 = Outcome.ran) :
    ∃ p : List Event, (runMain args env).1 = p ++ main_tail args env
      ∧ p.filter deadline_or_training = [] := by
  obtain ⟨clock, mainp, gpu⟩ := env
  by_cases hc : args.task_type ∈ TASK_TYPE_CHOICES ∧ args.file_format ∈ FILE_FORMAT_CHOICES
  · cases mainp with
    | false =>
        refine ⟨[.mkdir_submission, .mkdir_output], ?_, rfl⟩
        simp [runMain, hc]
    | true =>
        cases hp : parse_dataset_type args.task_type args.dataset_type_payload with
        | error msg =>
            exfalso
            simp [runMain, hc, hp] at h
        | ok dt =>
            by_cases ha : args.task_type = DPOTASK_VALUE ∨ args.task_type = GRPOTASK_VALUE
            · refine ⟨[.mkdir_submission, .mkdir_output, .mkdir_axolotl_dirs,
                .adapt_columns, .copy_dataset, .write_config], ?_, rfl⟩
              simp [runMain, hc, hp, ha]
            · refine ⟨[.mkdir_submission, .mkdir_output, .mkdir_axolotl_dirs,
                .copy_dataset, .write_config], ?_, rfl⟩
              simp [runMain, hc, hp, ha]
  · exfalso
    simp [runMain, hc] at h

/-- C1 (amended): in every run that reaches training, the end-of-budget
timestamp is computed exactly once, before any training step executes, and
training consults that same value — but it is the process's own wall-clock
read plus the hours budget (`end_time_stamp env.clock_now args.hours_to_complete`),
computed independently by each process, not a value shared from a single
computation. -/
theorem deadline_once_per_process (args : Args) (env : ProcEnv)
    (h : (runMain args env).2 = Outcome.ran) :
    ((runMain args env).1).filter deadline_or_training
      = [Event.compute_deadline (end_time_stamp env.clock_now args.hours_to_complete),
         Event.run_training (end_time_stamp env.clock_now args.hours_to_complete)] := by
  obtain ⟨p, hsh, hfp⟩ := runMain_ran_shape args env h
  rw [hsh, List.filter_append, hfp, filter_main_tail]
  rfl

/-- Witness for C1's amended statement at a concrete distributed GRPO run. -/
theorem deadline_once_per_process_witness :
    ((runMain sample_grpo_args sample_env).1).filter deadline_or_training
      = [Event.compute_deadline
           (end_time_stamp sample_env.clock_now sample_grpo_args.hours_to_complete),
         Event.run_training
           (end_time_stamp sample_env.clock_now sample_grpo_args.hours_to_complete)] :=
  deadline_once_per_process sample_grpo_args sample_env rfl

/-- Counterexample to C1 as stated: two cooperating processes of the same
distributed run (same arguments, multi-GPU) whose wall clocks read 100 and 101
at the deadline computation each record their own deadline, and the two
deadlines differ — the deadline is not a single shared value. -/
theorem deadline_not_shared_counterexample :
    end_time_stamp sample_env.clock_now sample_grpo_args.hours_to_complete
      ≠ end_time_stamp 101 sample_grpo_args.hours_to_complete
    ∧ Event.compute_deadline
        (end_time_stamp sample_env.clock_now sample_grpo_args.hours_to_complete)
      ∈ (runMain sample_grpo_args sample_env).1
    ∧ Event.compute_deadline (end_time_stamp 101 sample_grpo_args.hours_to_complete)
      ∈ (runMain sample_grpo_args
          { clock_now := 101, is_main_process := false, gpu_count := 2 }).1 := by
  obtain ⟨p1, hsh1, _⟩ := runMain_ran_shape sample_grpo_args sample_env rfl
  obtain ⟨p2, hsh2, _⟩ := runMain_ran_shape sample_grpo_args
    { clock_now := 101, is_main_process := false, gpu_count := 2 } rfl
  refine ⟨by norm_num [end_time_stamp, sample_env, sample_grpo_args], ?_, ?_⟩
  · rw [hsh1]
    exact List.mem_append_right _ (by simp [main_tail])
  · rw [hsh2]
    exact List.mem_append_right _ (by simp [main_tail])

/-- C4 (amended): an unsupported task type (or file format) is rejected by
argument parsing, with a non-zero exit before any effect; a dataset-type
payload that fails to parse makes the main process exit with the descriptive
message before dataset adaptation, dataset copying, config creation and
training — but after the submission, output and axolotl directories have been
created. -/
theorem input_errors_fail_fast (args : Args) (env : ProcEnv) :
    (args.task_type ∉ TASK_TYPE_CHOICES ∨ args.file_format ∉ FILE_FORMAT_CHOICES →
      runMain args env = ([], Outcome.argparse_error))
    ∧ (env.is_main_process = true →
       args.task_type ∈ TASK_TYPE_CHOICES →
       args.file_format ∈ FILE_FORMAT_CHOICES →
       ∀ msg : String,
         parse_dataset_type args.task_type args.dataset_type_payload
           = Except.error msg →
         runMain args env
           = ([Event.mkdir_submission, Event.mkdir_output, Event.mkdir_axolotl_dirs],
              Outcome.exited msg)) := by
  constructor
  · intro hbad
    have hc : ¬(args.task_type ∈ TASK_TYPE_CHOICES
        ∧ args.file_format ∈ FILE_FORMAT_CHOICES) := by tauto
    simp [runMain, hc]
  · intro hm h1 h2 msg hp
    simp [runMain, h1, h2, hm, hp]

/-- Witness for C4's amended statement: the malformed-payload invocation exits
with the descriptive message, having created exactly the three directories. -/
theorem input_errors_fail_fast_witness :
    runMain sample_malformed_args sample_env
      = ([Event.mkdir_submission, Event.mkdir_output, Event.mkdir_axolotl_dirs],
         Outcome.exited "Error creating dataset type object: invalid JSON") :=
  (input_errors_fail_fast sample_malformed_args sample_env).2 rfl (by decide) (by decide)
    "Error creating dataset type object: invalid JSON" rfl

/-- Counterexample to C4 as stated: on a malformed dataset-type payload the
process does exit with a descriptive message, but only after creating the
submission, output and axolotl directories — partial state exists. -/
theorem input_error_after_mkdir_counterexample :
    (runMain sample_malformed_args sample_env).2
      = Outcome.exited "Error creating dataset type object: invalid JSON"
    ∧ Event.mkdir_submission ∈ (runMain sample_malformed_args sample_env).1
    ∧ Event.mkdir_output ∈ (runMain sample_malformed_args sample_env).1
    ∧ Event.mkdir_axolotl_dirs ∈ (runMain sample_malformed_args sample_env).1 := by
  refine ⟨rfl, by decide, by decide, by decide⟩

end TextTrainer
